import Mathlib

/-!
Shallow embedding of `pure_recipe.py` (jknndy/pure-recipe).

Python strings are modelled as lists of characters (`PyStr`).  Python
`str.lower` is modelled on the ASCII letters and `str.isspace` on the ASCII
whitespace characters; recipe scraping (the external `recipe_scrapers`
library) is modelled as an oracle `PyStr → Option Recipe`, where `none`
means `scrape_me` raised an exception.  File-system writes are recorded as
(path, content) pairs, console output as abstract messages.
-/

set_option maxRecDepth 10000

abbrev PyStr := List Char

/-- Python `str.isspace` on a single character (ASCII whitespace). -/
def pyIsSpace (c : Char) : Bool :=
  c == ' ' || c == '\t' || c == '\n' || c == '\x0b' || c == '\x0c' || c == '\r'

/-- Python `str.lower` on a single character (ASCII range): an uppercase
ASCII letter moves down by 32 code points, anything else is unchanged. -/
def pyToLower (c : Char) : Char :=
  if c ∈ ("ABCDEFGHIJKLMNOPQRSTUVWXYZ").data then Char.ofNat (c.toNat + 32) else c

/-- Python `str.lower`. -/
def pyLower (s : PyStr) : PyStr := s.map pyToLower

/-- Python `title.replace(" ", "-")` (line 81 of `pure_recipe.py`). -/
def pyReplaceSpaceDash (s : PyStr) : PyStr :=
  s.map (fun c => if c = ' ' then '-' else c)

/-- `format_file_name` (lines 47-60): lowercase the title, then replace every
whitespace character by a hyphen. -/
def format_file_name (recipe_title : PyStr) : PyStr :=
  (pyLower recipe_title).map (fun c => if pyIsSpace c then '-' else c)

/-- Python `str.strip` with no argument, left part: drop leading whitespace. -/
def pyStripLeft (s : PyStr) : PyStr := s.dropWhile pyIsSpace

/-- Python `str.strip` with no argument, right part: drop trailing whitespace. -/
def pyStripRight (s : PyStr) : PyStr := (s.reverse.dropWhile pyIsSpace).reverse

/-- Python `str.strip()`: drop leading and trailing whitespace. -/
def pyStrip (s : PyStr) : PyStr := pyStripRight (pyStripLeft s)

/-- Python `s.rstrip("\n")`. -/
def pyRstripNl (s : PyStr) : PyStr :=
  (s.reverse.dropWhile (fun c => c == '\n')).reverse

/-- The recipe fields delivered by the external scraper
(`title()`, `yields()`, `total_time()`, `ingredients()`, `instructions_list()`). -/
structure Recipe where
  title : PyStr
  yields : PyStr
  total_time : Nat
  ingredients : List PyStr
  instructions_list : List PyStr
  deriving DecidableEq, Repr

/-- The settings dictionary as consumed by the save/view/browse operations:
keys `directory`, `time`, `yield`. -/
structure Settings where
  directory : PyStr
  time : Bool
  yieldFlag : Bool
  deriving DecidableEq, Repr

/-- Decimal rendering of a natural number, as Python `f"{n}"`. -/
def natStr (n : Nat) : PyStr := (Nat.repr n).data

/-- One `print(..., file=text_file)` call: the text plus a newline. -/
def pline (l : PyStr) : PyStr := l ++ ['\n']

/-- The `- <ingredient>` lines (lines 94-95). -/
def ingredientLines : List PyStr → PyStr
  | [] => []
  | ing :: rest => pline (("- ").data ++ ing) ++ ingredientLines rest

/-- The `<index+1>. <instruction>` lines (lines 99-100). -/
def instructionLines : Nat → List PyStr → PyStr
  | _, [] => []
  | i, instr :: rest =>
      pline (natStr (i + 1) ++ (". ").data ++ instr) ++ instructionLines (i + 1) rest

/-- Everything `save_recipe_to_markdown` prints after the `# {title}` header
(lines 87-100). -/
def markdownBody (scraper : Recipe) (yaml_settings : Settings) : PyStr :=
  (if yaml_settings.yieldFlag then pline (("**Serves:** ").data ++ scraper.yields) else [])
    ++ (if yaml_settings.time then
          pline (("**Total Time:** ").data ++ natStr scraper.total_time ++ (" mins").data)
        else [])
    ++ pline (("\n## Ingredients").data)
    ++ ingredientLines scraper.ingredients
    ++ pline (("\n## Instructions").data)
    ++ instructionLines 0 scraper.instructions_list

/-- The full Markdown document written by `save_recipe_to_markdown`
(lines 84-100).  Note that line 81 replaces every space of the scraped title
by a hyphen before the `# {title}` header is printed. -/
def recipeMarkdown (scraper : Recipe) (yaml_settings : Settings) : PyStr :=
  pline (("# ").data ++ pyReplaceSpaceDash scraper.title)
    ++ markdownBody scraper yaml_settings

/-- The file-name part of line 82:
`format_file_name(title) + ".md"` where `title` is the scraped title with
spaces already replaced by hyphens (line 81). -/
def sourceFileName (title : PyStr) : PyStr :=
  format_file_name (pyReplaceSpaceDash title) ++ (".md").data

/-- The full path of line 82: `directory + "/" + format_file_name(title) + ".md"`. -/
def savePath (r : Recipe) (s : Settings) : PyStr :=
  s.directory ++ ("/").data ++ sourceFileName r.title

/-- Console messages the modelled operations can emit. -/
inductive Msg where
  /-- line 75: `Could not scrape recipe, error: ...` -/
  | couldNotScrape
  /-- line 197: `Error saving recipe from URL: ... ` -/
  | batchSaveError (url : PyStr)
  /-- line 238: `No markdown files found in the specified directory.` -/
  | noMarkdownFiles
  /-- line 159: `An error occurred: ...` -/
  | genericError
  /-- line 146: `Recipe saved successfully.` -/
  | recipeSaved
  deriving DecidableEq, Repr

/-- Python exceptions that the model distinguishes. -/
inductive PyError where
  | unboundLocal
  | typeError
  deriving DecidableEq, Repr

/-- Observable outcome of one `save_recipe_to_markdown` call. -/
structure SaveOutcome where
  messages : List Msg
  written : Option (PyStr × PyStr)
  raised : Option PyError
  deriving DecidableEq, Repr

/-- `save_recipe_to_markdown` (lines 63-102).  When the scrape raises, the
`except` arm on lines 74-77 prints the scrape error and execution *continues*;
line 81 then reads the never-assigned local `scraper`, so Python raises
`UnboundLocalError` before any file is opened.  On a successful scrape the
document is written to the derived path and the path returned. -/
def save_recipe_to_markdown (scrape : PyStr → Option Recipe) (recipe_url : PyStr)
    (yaml_settings : Settings) : SaveOutcome :=
  match scrape recipe_url with
  | none =>
      { messages := [Msg.couldNotScrape]
        written := none
        raised := some PyError.unboundLocal }
  | some scraper =>
      { messages := []
        written := some (savePath scraper yaml_settings, recipeMarkdown scraper yaml_settings)
        raised := none }

/-- First line of a string, newline excluded. -/
def firstLine (s : PyStr) : PyStr := s.takeWhile (fun c => c != '\n')

/-- Python `f.readline()`: the first line, trailing newline included when present. -/
def pyReadline (s : PyStr) : PyStr :=
  s.takeWhile (fun c => c != '\n') ++ (s.dropWhile (fun c => c != '\n')).take 1

/-- Title extraction of `browse_recipes` (line 234):
`f.readline().lstrip("#").strip()`. -/
def extractTitle (content : PyStr) : PyStr :=
  pyStrip ((pyReadline content).dropWhile (fun c => c == '#'))

/-- Splitting a file's content into lines the way `for line in f` does:
each line keeps its trailing newline; a final fragment without a newline is
its own line; the empty content has no lines. -/
def pyFileLinesAux : PyStr → PyStr → List PyStr
  | [], acc => if acc.isEmpty then [] else [acc.reverse]
  | c :: rest, acc =>
      if c = '\n' then (('\n' :: acc).reverse) :: pyFileLinesAux rest []
      else pyFileLinesAux rest (c :: acc)

def pyFileLines (s : PyStr) : List PyStr := pyFileLinesAux s []

/-- Line 193: `line.strip().rstrip("\n")`. -/
def stripLine (line : PyStr) : PyStr := pyRstripNl (pyStrip line)

/-- Observable outcome of `save_list_of_recipes`. -/
structure BatchOutcome where
  messages : List Msg
  writes : List (PyStr × PyStr)
  attempts : List PyStr
  deriving DecidableEq, Repr

/-- The loop body of `save_list_of_recipes` (lines 192-200): for every line,
strip it, attempt the save, and catch (and report) any exception the save
raises; then continue with the next line. -/
def processLines (scrape : PyStr → Option Recipe) (settings : Settings) :
    List PyStr → BatchOutcome
  | [] => { messages := [], writes := [], attempts := [] }
  | l :: rest =>
      let single_url := stripLine l
      let r := save_recipe_to_markdown scrape single_url settings
      let caught : List Msg :=
        match r.raised with
        | some _ => [Msg.batchSaveError single_url]
        | none => []
      let tail := processLines scrape settings rest
      { messages := r.messages ++ caught ++ tail.messages
        writes := r.written.toList ++ tail.writes
        attempts := single_url :: tail.attempts }

/-- `save_list_of_recipes` (lines 163-212) on an existing URL file with the
given content. -/
def save_list_of_recipes (scrape : PyStr → Option Recipe) (fileContent : PyStr)
    (settings : Settings) : BatchOutcome :=
  processLines scrape settings (pyFileLines fileContent)

/-- A directory entry: file name and file content. -/
structure DirEntry where
  name : PyStr
  content : PyStr
  deriving DecidableEq, Repr

/-- Python dict assignment `m[k] = v` on an association list. -/
def assocSet : List (PyStr × PyStr) → PyStr → PyStr → List (PyStr × PyStr)
  | [], k, v => [(k, v)]
  | e :: rest, k, v => if e.1 = k then (k, v) :: rest else e :: assocSet rest k v

/-- `os.path.join` for two components (POSIX). -/
def pathJoin (a b : PyStr) : PyStr :=
  if b.head? = some '/' then b
  else if a = [] ∨ a.getLast? = some '/' then a ++ b
  else a ++ '/' :: b

/-- The `title_to_file` loop of `browse_recipes` (lines 227-235): for every
directory entry whose name ends in `.md`, read the first line of the file,
strip the leading `#` marker and whitespace, and map that title to the path. -/
def browseTitleMapAux (directory : PyStr) (m : List (PyStr × PyStr)) :
    List DirEntry → List (PyStr × PyStr)
  | [] => m
  | e :: rest =>
      let m2 :=
        if ((".md").data).isSuffixOf e.name then
          assocSet m (extractTitle e.content) (pathJoin directory e.name)
        else m
      browseTitleMapAux directory m2 rest

/-- Observable outcome of the first phase of `browse_recipes`. -/
inductive BrowseOutcome where
  /-- line 222: directory not specified, report and return -/
  | noDirectory
  /-- line 238: no markdown files found, report and return -/
  | nothingToBrowse
  /-- line 246: the selection prompt is shown with these choices -/
  | prompted (choices : List PyStr)
  deriving DecidableEq, Repr

/-- `browse_recipes` (lines 215-254) up to the selection prompt. -/
def browse_recipes (settings : Settings) (listing : List DirEntry) : BrowseOutcome :=
  if settings.directory = [] then BrowseOutcome.noDirectory
  else
    let title_to_file := browseTitleMapAux settings.directory [] listing
    if title_to_file = [] then BrowseOutcome.nothingToBrowse
    else BrowseOutcome.prompted (title_to_file.map Prod.fst ++ [("Quit").data])

/-- YAML scalar values the config file can hold for the keys in use. -/
inductive YVal where
  | vnull
  | vbool (b : Bool)
  | vstr (s : PyStr)
  deriving DecidableEq, Repr

/-- A YAML mapping / Python dict as an association list. -/
abbrev YDict := List (PyStr × YVal)

def dictGet : YDict → PyStr → Option YVal
  | [], _ => none
  | e :: rest, k => if e.1 = k then some e.2 else dictGet rest k

/-- Python dict assignment `d[k] = v`. -/
def dictSet : YDict → PyStr → YVal → YDict
  | [], k, v => [(k, v)]
  | e :: rest, k, v => if e.1 = k then (k, v) :: rest else e :: dictSet rest k v

/-- Python `d.setdefault(k, v)` (result dict). -/
def dictSetdefault : YDict → PyStr → YVal → YDict
  | [], k, v => [(k, v)]
  | e :: rest, k, v => if e.1 = k then e :: rest else e :: dictSetdefault rest k v

def kDirectory : PyStr := ("directory").data
def kTime : PyStr := ("time").data
def kYield : PyStr := ("yield").data

/-- The dict `load_yaml` writes into a freshly created config file (line 297). -/
def configDefaultCreated : YDict :=
  [(kDirectory, YVal.vnull), (kTime, YVal.vbool true), (kYield, YVal.vbool true)]

/-- `os.path.join(os.path.expanduser("~"), "Documents", "pure_recipes")`
(lines 306-308), with the expanded home directory as a parameter. -/
def defaultRecipeDirectory (home : PyStr) : PyStr :=
  pathJoin (pathJoin home (("Documents").data)) (("pure_recipes").data)

/-- Lines 314-316: `settings.setdefault("time", True)` and
`settings.setdefault("yield", True)`. -/
def withDefaults (d : YDict) : YDict :=
  dictSetdefault (dictSetdefault d kTime (YVal.vbool true)) kYield (YVal.vbool true)

/-- `load_yaml` (lines 281-318).  `configFile = none` models a missing (or
empty) config file: it is created holding `directory: null, time: true,
yield: true` and read back.  Lines 304-309: a falsy `directory` entry
(missing, `null`, `false` or the empty string) is replaced by the default
recipe directory; a truthy non-string entry makes `os.makedirs` on line 312
raise a `TypeError` before the function can return. -/
def load_yaml (home : PyStr) (configFile : Option YDict) : Except PyError YDict :=
  let settings : YDict :=
    match configFile with
    | none => configDefaultCreated
    | some d => d
  match dictGet settings kDirectory with
  | some (YVal.vstr s) =>
      if s = [] then
        Except.ok (withDefaults (dictSet settings kDirectory
          (YVal.vstr (defaultRecipeDirectory home))))
      else Except.ok (withDefaults settings)
  | some (YVal.vbool b) =>
      if b then Except.error PyError.typeError
      else Except.ok (withDefaults (dictSet settings kDirectory
        (YVal.vstr (defaultRecipeDirectory home))))
  | some YVal.vnull =>
      Except.ok (withDefaults (dictSet settings kDirectory
        (YVal.vstr (defaultRecipeDirectory home))))
  | none =>
      Except.ok (withDefaults (dictSet settings kDirectory
        (YVal.vstr (defaultRecipeDirectory home))))

/-- Answers to the `What would you like to do next?` prompt of `view_recipe`. -/
inductive ViewAnswer where
  | saveRecipe
  | quit
  deriving DecidableEq, Repr

/-- Events of one `view_recipe` run, in program order. -/
inductive VEvent where
  | write (path content : PyStr)
  | display
  | promptShown
  | message (m : Msg)
  deriving DecidableEq, Repr

/-- `view_recipe` (lines 114-160) with `prompt_save = True` (as called from
`main`).  It first calls `save_recipe_to_markdown`: on scrape failure that
call prints the scrape report and raises `UnboundLocalError`, which the
generic handler on line 159 catches and reports.  On success the file is
written, read back and displayed, and the prompt is shown; answering
`Save this recipe` saves (writes) again, answering `Quit` returns. -/
def view_recipe (scrape : PyStr → Option Recipe) (url : PyStr) (settings : Settings)
    (answer : ViewAnswer) : List VEvent :=
  match scrape url with
  | none => [VEvent.message Msg.couldNotScrape, VEvent.message Msg.genericError]
  | some r =>
      let p := savePath r settings
      let c := recipeMarkdown r settings
      [VEvent.write p c, VEvent.display, VEvent.promptShown] ++
        (match answer with
         | ViewAnswer.saveRecipe => [VEvent.write p c, VEvent.message Msg.recipeSaved]
         | ViewAnswer.quit => [])

/-- A storage directory as a list of (path, content) files. -/
abbrev Store := List (PyStr × PyStr)

/-- `open(path, "w+")` followed by writes: create the file or overwrite the
file already at that path. -/
def storeWrite : Store → PyStr → PyStr → Store
  | [], p, c => [(p, c)]
  | e :: rest, p, c => if e.1 = p then (p, c) :: rest else e :: storeWrite rest p c

/-- `n` repetitions of `save_recipe_to_markdown` for the same recipe applied
to a storage directory. -/
def repeatSave (st : Store) (r : Recipe) (s : Settings) : Nat → Store
  | 0 => st
  | n + 1 => storeWrite (repeatSave st r s n) (savePath r s) (recipeMarkdown r s)

/-- The file-name derivation as §4.1/§8 of the specification state it:
lowercase the title, map every whitespace character to `-`, leave every
other character unchanged, and append `.md`. -/
def spec_derive_filename (title : PyStr) : PyStr :=
  (title.map (fun c => if pyIsSpace c then '-' else pyToLower c)) ++ (".md").data

/- Concrete data used by witnesses and counterexamples. -/

def lemonCakeRecipe : Recipe :=
  { title := ("Lemon Cake").data
    yields := ("8 servings").data
    total_time := 45
    ingredients := [("flour").data, ("lemon").data]
    instructions_list := [("mix").data, ("bake").data] }

def soupRecipe : Recipe :=
  { title := ("Soup").data
    yields := ("2 servings").data
    total_time := 20
    ingredients := [("water").data]
    instructions_list := [("boil").data] }

def chiliRecipe : Recipe :=
  { title := ("Chili").data
    yields := ("4 servings").data
    total_time := 60
    ingredients := [("beans").data]
    instructions_list := [("simmer").data] }

def defaultSettings : Settings :=
  { directory := ("/home/user/Documents/pure_recipes").data
    time := true
    yieldFlag := true }

def demoUrl : PyStr := ("https://example.com/lemon-cake").data

/-- A scrape oracle that succeeds on `demoUrl` only. -/
def demoScrape : PyStr → Option Recipe :=
  fun u => if u = demoUrl then some lemonCakeRecipe else none

def urlA : PyStr := ("https://example.com/soup").data
def urlB : PyStr := ("https://example.com/bad").data
def urlC : PyStr := ("https://example.com/chili").data

/-- A scrape oracle for the batch scenario: the second URL fails. -/
def batchScrape : PyStr → Option Recipe :=
  fun u => if u = urlA then some soupRecipe else if u = urlC then some chiliRecipe else none

/-- The batch input file: three URLs, one per line. -/
def batchFile : PyStr := urlA ++ '\n' :: urlB ++ '\n' :: urlC ++ ['\n']

/-! ## Helper lemmas about the string primitives -/

theorem pyToLower_cases (c : Char) :
    pyToLower c = c ∨
      (c ∈ ("ABCDEFGHIJKLMNOPQRSTUVWXYZ").data ∧
        pyToLower c ∈ ("abcdefghijklmnopqrstuvwxyz").data) := by
  by_cases h : c ∈ ("ABCDEFGHIJKLMNOPQRSTUVWXYZ").data
  · right
    refine ⟨h, ?_⟩
    unfold pyToLower
    rw [if_pos h]
    exact (by decide :
      ∀ x ∈ ("ABCDEFGHIJKLMNOPQRSTUVWXYZ").data,
        Char.ofNat (x.toNat + 32) ∈ ("abcdefghijklmnopqrstuvwxyz").data) c h
  · left
    unfold pyToLower
    rw [if_neg h]

theorem pyIsSpace_pyToLower (c : Char) : pyIsSpace (pyToLower c) = pyIsSpace c := by
  rcases pyToLower_cases c with h | ⟨hu, hl⟩
  · rw [h]
  · have hlo : ∀ x ∈ ("abcdefghijklmnopqrstuvwxyz").data, pyIsSpace x = false := by decide
    have hup : ∀ x ∈ ("ABCDEFGHIJKLMNOPQRSTUVWXYZ").data, pyIsSpace x = false := by decide
    rw [hlo _ hl, hup _ hu]

theorem newline_not_mem_replace {t : PyStr} (h : '\n' ∉ t) :
    '\n' ∉ pyReplaceSpaceDash t := by
  intro hmem
  rcases List.mem_map.mp hmem with ⟨a, ha, hfa⟩
  by_cases hsp : a = ' '
  · rw [hsp, if_pos rfl] at hfa
    exact absurd hfa (by decide)
  · rw [if_neg hsp] at hfa
    exact h (hfa ▸ ha)

theorem takeWhile_append_newline (l : PyStr) : ∀ (r : PyStr), '\n' ∉ l →
    (l ++ '\n' :: r).takeWhile (fun c => c != '\n') = l := by
  induction l with
  | nil => intro r _; simp [List.takeWhile]
  | cons a l ih =>
      intro r h
      have ha : a ≠ '\n' := fun e => h (List.mem_cons.mpr (Or.inl e.symm))
      have hl : '\n' ∉ l := fun hm => h (List.mem_cons_of_mem a hm)
      simp only [List.cons_append, List.takeWhile_cons]
      simp [bne_iff_ne, ha, ih r hl]

theorem dropWhile_append_newline (l : PyStr) : ∀ (r : PyStr), '\n' ∉ l →
    (l ++ '\n' :: r).dropWhile (fun c => c != '\n') = '\n' :: r := by
  induction l with
  | nil => intro r _; simp [List.dropWhile]
  | cons a l ih =>
      intro r h
      have ha : a ≠ '\n' := fun e => h (List.mem_cons.mpr (Or.inl e.symm))
      have hl : '\n' ∉ l := fun hm => h (List.mem_cons_of_mem a hm)
      simp only [List.cons_append, List.dropWhile_cons]
      simp [bne_iff_ne, ha, ih r hl]

theorem firstLine_append (l r : PyStr) (h : '\n' ∉ l) :
    firstLine (l ++ '\n' :: r) = l :=
  takeWhile_append_newline l r h

theorem pyReadline_append (l r : PyStr) (h : '\n' ∉ l) :
    pyReadline (l ++ '\n' :: r) = l ++ ['\n'] := by
  unfold pyReadline
  rw [takeWhile_append_newline l r h, dropWhile_append_newline l r h]
  simp

theorem pyStrip_cons_space (c : Char) (l : PyStr) (h : pyIsSpace c = true) :
    pyStrip (c :: l) = pyStrip l := by
  unfold pyStrip pyStripLeft
  simp [List.dropWhile_cons, h]

theorem pyStripRight_append_space (l : PyStr) (c : Char) (h : pyIsSpace c = true) :
    pyStripRight (l ++ [c]) = pyStripRight l := by
  unfold pyStripRight
  rw [List.reverse_append]
  simp [List.dropWhile_cons, h]

theorem pyStrip_append_space (l : PyStr) (c : Char) (h : pyIsSpace c = true) :
    pyStrip (l ++ [c]) = pyStrip l := by
  unfold pyStrip pyStripLeft
  rw [List.dropWhile_append]
  by_cases he : (l.dropWhile pyIsSpace).isEmpty
  · rw [if_pos he]
    have h1 : ([c].dropWhile pyIsSpace) = [] := by simp [List.dropWhile_cons, h]
    rw [h1]
    rw [List.isEmpty_iff] at he
    rw [he]
  · rw [if_neg he]
    exact pyStripRight_append_space _ c h

theorem recipeMarkdown_shape (r : Recipe) (s : Settings) :
    recipeMarkdown r s =
      (("# ").data ++ pyReplaceSpaceDash r.title) ++ '\n' :: markdownBody r s := by
  unfold recipeMarkdown pline
  rw [List.append_assoc]
  rfl

theorem header_no_newline {r : Recipe} (h : '\n' ∉ r.title) :
    '\n' ∉ ("# ").data ++ pyReplaceSpaceDash r.title := by
  intro hm
  rcases List.mem_append.mp hm with h1 | h2
  · exact absurd h1 (by decide)
  · exact newline_not_mem_replace h h2

theorem firstLine_recipeMarkdown (r : Recipe) (s : Settings) (h : '\n' ∉ r.title) :
    firstLine (recipeMarkdown r s) = ("# ").data ++ pyReplaceSpaceDash r.title := by
  rw [recipeMarkdown_shape]
  exact firstLine_append _ _ (header_no_newline h)

theorem extractTitle_recipeMarkdown (r : Recipe) (s : Settings) (h : '\n' ∉ r.title) :
    extractTitle (recipeMarkdown r s) = pyStrip (pyReplaceSpaceDash r.title) := by
  unfold extractTitle
  rw [recipeMarkdown_shape, pyReadline_append _ _ (header_no_newline h)]
  show pyStrip (('#' :: ' ' :: (pyReplaceSpaceDash r.title ++ ['\n'])).dropWhile
    (fun c => c == '#')) = _
  have hdrop : ('#' :: ' ' :: (pyReplaceSpaceDash r.title ++ ['\n'])).dropWhile
      (fun c => c == '#') = ' ' :: (pyReplaceSpaceDash r.title ++ ['\n']) := by
    simp [List.dropWhile_cons]
  rw [hdrop, pyStrip_cons_space ' ' _ (by decide), pyStrip_append_space _ '\n' (by decide)]

/-! ## Helper lemmas about file lines, the batch loop, dicts and the store -/

theorem pyFileLinesAux_cons_ne (a : Char) (s acc : PyStr) (h : a ≠ '\n') :
    pyFileLinesAux (a :: s) acc = pyFileLinesAux s (a :: acc) := by
  show (if a = '\n' then (('\n' :: acc).reverse) :: pyFileLinesAux s []
        else pyFileLinesAux s (a :: acc)) = _
  rw [if_neg h]

theorem pyFileLinesAux_cons_nl (s acc : PyStr) :
    pyFileLinesAux ('\n' :: s) acc = (acc.reverse ++ ['\n']) :: pyFileLinesAux s [] := by
  show (if ('\n' : Char) = '\n' then (('\n' :: acc).reverse) :: pyFileLinesAux s []
        else pyFileLinesAux s ('\n' :: acc)) = _
  rw [if_pos rfl]
  simp

theorem pyFileLinesAux_append (l : PyStr) : ∀ (rest acc : PyStr), '\n' ∉ l →
    pyFileLinesAux (l ++ '\n' :: rest) acc =
      ((acc.reverse ++ l) ++ ['\n']) :: pyFileLinesAux rest [] := by
  induction l with
  | nil =>
      intro rest acc _
      show pyFileLinesAux ('\n' :: rest) acc = _
      rw [pyFileLinesAux_cons_nl]
      simp
  | cons a l ih =>
      intro rest acc h
      have ha : a ≠ '\n' := fun e => h (List.mem_cons.mpr (Or.inl e.symm))
      have hl : '\n' ∉ l := fun hm => h (List.mem_cons_of_mem a hm)
      show pyFileLinesAux (a :: (l ++ '\n' :: rest)) acc = _
      rw [pyFileLinesAux_cons_ne a _ acc ha, ih rest (a :: acc) hl]
      simp [List.append_assoc]

theorem pyFileLines_append (l rest : PyStr) (h : '\n' ∉ l) :
    pyFileLines (l ++ '\n' :: rest) = (l ++ ['\n']) :: pyFileLines rest := by
  unfold pyFileLines
  rw [pyFileLinesAux_append l rest [] h]
  simp

theorem processLines_attempts (scrape : PyStr → Option Recipe) (s : Settings)
    (ls : List PyStr) :
    (processLines scrape s ls).attempts = ls.map stripLine := by
  induction ls with
  | nil => rfl
  | cons l ls ih => simp [processLines, ih]

theorem processLines_cons_ok (scrape : PyStr → Option Recipe) (s : Settings)
    (l : PyStr) (ls : List PyStr) (r : Recipe) (h : scrape (stripLine l) = some r) :
    processLines scrape s (l :: ls) =
      { messages := (processLines scrape s ls).messages
        writes := (savePath r s, recipeMarkdown r s) :: (processLines scrape s ls).writes
        attempts := stripLine l :: (processLines scrape s ls).attempts } := by
  simp [processLines, save_recipe_to_markdown, h]

theorem processLines_cons_fail (scrape : PyStr → Option Recipe) (s : Settings)
    (l : PyStr) (ls : List PyStr) (h : scrape (stripLine l) = none) :
    processLines scrape s (l :: ls) =
      { messages := Msg.couldNotScrape :: Msg.batchSaveError (stripLine l) ::
          (processLines scrape s ls).messages
        writes := (processLines scrape s ls).writes
        attempts := stripLine l :: (processLines scrape s ls).attempts } := by
  simp [processLines, save_recipe_to_markdown, h]

theorem dictGet_set_self (d : YDict) (k : PyStr) (v : YVal) :
    dictGet (dictSet d k v) k = some v := by
  induction d with
  | nil => simp [dictSet, dictGet]
  | cons e rest ih =>
      by_cases he : e.1 = k
      · simp [dictSet, dictGet, he]
      · simp [dictSet, dictGet, he, ih]

theorem dictGet_set_other (d : YDict) (k k2 : PyStr) (v : YVal) (h : k2 ≠ k) :
    dictGet (dictSet d k v) k2 = dictGet d k2 := by
  induction d with
  | nil => simp [dictSet, dictGet, Ne.symm h]
  | cons e rest ih =>
      by_cases he : e.1 = k
      · have hk : ¬ k = k2 := fun hx => h hx.symm
        have he2 : ¬ e.1 = k2 := fun hx => h (hx.symm.trans he)
        simp [dictSet, dictGet, he, hk, he2]
      · simp [dictSet, dictGet, he, ih]

theorem dictGet_setdefault_self (d : YDict) (k : PyStr) (v : YVal) :
    dictGet (dictSetdefault d k v) k = some ((dictGet d k).getD v) := by
  induction d with
  | nil => simp [dictSetdefault, dictGet]
  | cons e rest ih =>
      by_cases he : e.1 = k
      · simp [dictSetdefault, dictGet, he]
      · simp [dictSetdefault, dictGet, he, ih]

theorem dictGet_setdefault_other (d : YDict) (k k2 : PyStr) (v : YVal) (h : k2 ≠ k) :
    dictGet (dictSetdefault d k v) k2 = dictGet d k2 := by
  induction d with
  | nil => simp [dictSetdefault, dictGet, Ne.symm h]
  | cons e rest ih =>
      by_cases he : e.1 = k
      · simp [dictSetdefault, dictGet, he]
      · simp [dictSetdefault, dictGet, he, ih]

theorem pathJoin_ne_nil (a b : PyStr) (h : b ≠ []) : pathJoin a b ≠ [] := by
  unfold pathJoin
  split_ifs with h1 h2
  · exact h
  · intro e
    exact h (List.append_eq_nil.mp e).2
  · intro e
    exact absurd (List.append_eq_nil.mp e).2 (by simp)

theorem storeWrite_write (st : Store) (p c : PyStr) :
    storeWrite (storeWrite st p c) p c = storeWrite st p c := by
  induction st with
  | nil => simp [storeWrite]
  | cons e rest ih =>
      by_cases he : e.1 = p
      · simp [storeWrite, he]
      · simp [storeWrite, he, ih]

theorem storeWrite_keys (st : Store) (p c : PyStr) :
    (storeWrite st p c).map Prod.fst =
      if p ∈ st.map Prod.fst then st.map Prod.fst else st.map Prod.fst ++ [p] := by
  induction st with
  | nil => simp [storeWrite]
  | cons e rest ih =>
      by_cases he : e.1 = p
      · simp [storeWrite, he]
      · simp only [storeWrite, if_neg he, List.map_cons, ih, List.mem_cons]
        by_cases hm : p ∈ rest.map Prod.fst
        · rw [if_pos hm, if_pos (Or.inr hm)]
        · rw [if_neg hm, if_neg ?_]
          · simp
          · rintro (he2 | hm2)
            · exact he he2.symm
            · exact hm hm2

theorem repeatSave_eq (st : Store) (r : Recipe) (s : Settings) (n : Nat) (h : 1 ≤ n) :
    repeatSave st r s n = storeWrite st (savePath r s) (recipeMarkdown r s) := by
  induction n with
  | zero => omega
  | succ n ih =>
      rcases Nat.eq_zero_or_pos n with h0 | hp
      · rw [h0]
        rfl
      · show storeWrite (repeatSave st r s n) (savePath r s) (recipeMarkdown r s) = _
        rw [ih hp, storeWrite_write]

theorem browseTitleMapAux_no_md (directory : PyStr) (listing : List DirEntry) :
    ∀ (m : List (PyStr × PyStr)),
      (∀ e ∈ listing, ((".md").data).isSuffixOf e.name = false) →
      browseTitleMapAux directory m listing = m := by
  induction listing with
  | nil => intro m _; rfl
  | cons e rest ih =>
      intro m h
      have he : ((".md").data).isSuffixOf e.name = false := h e (List.mem_cons_self e rest)
      have hrest : ∀ x ∈ rest, ((".md").data).isSuffixOf x.name = false :=
        fun x hx => h x (List.mem_cons_of_mem e hx)
      show browseTitleMapAux directory _ (e :: rest) = m
      unfold browseTitleMapAux
      rw [if_neg (by rw [he]; exact Bool.false_ne_true)]
      exact ih m hrest

theorem sourceFileName_eq_spec (t : PyStr) : sourceFileName t = spec_derive_filename t := by
  unfold sourceFileName spec_derive_filename format_file_name pyLower pyReplaceSpaceDash
  rw [List.map_map, List.map_map]
  congr 1
  apply List.map_congr_left
  intro c _
  simp only [Function.comp]
  by_cases hsp : c = ' '
  · rw [hsp]
    decide
  · rw [if_neg hsp, pyIsSpace_pyToLower]

/-! ## Claims -/

/-- C1, counterexample: for the recipe titled `Lemon Cake`, the first line of
the document written by `save_recipe_to_markdown` is `# Lemon-Cake`, not
`# Lemon Cake` — line 81 replaces the spaces of the scraped title by hyphens
before printing the header. -/
theorem c1_counterexample :
    (save_recipe_to_markdown demoScrape demoUrl defaultSettings).written =
      some (savePath lemonCakeRecipe defaultSettings,
        recipeMarkdown lemonCakeRecipe defaultSettings) ∧
    firstLine (recipeMarkdown lemonCakeRecipe defaultSettings) ≠
      ("# ").data ++ lemonCakeRecipe.title ∧
    firstLine (recipeMarkdown lemonCakeRecipe defaultSettings) = ("# Lemon-Cake").data := by
  refine ⟨by decide, by decide, by decide⟩

/-- C1 (amended): for every recipe returned by the scraper whose title
contains no newline, the document produced by `save_recipe_to_markdown` has
as its first line exactly `# ` followed by the title with every space
replaced by a hyphen. -/
theorem c1_first_line_hyphenated (scrape : PyStr → Option Recipe) (url : PyStr)
    (s : Settings) (r : Recipe) (hscrape : scrape url = some r) (ht : '\n' ∉ r.title) :
    (save_recipe_to_markdown scrape url s).written =
      some (savePath r s, recipeMarkdown r s) ∧
    firstLine (recipeMarkdown r s) = ("# ").data ++ pyReplaceSpaceDash r.title := by
  constructor
  · simp [save_recipe_to_markdown, hscrape]
  · exact firstLine_recipeMarkdown r s ht

theorem c1_first_line_hyphenated_witness :
    (save_recipe_to_markdown demoScrape demoUrl defaultSettings).written =
      some (savePath lemonCakeRecipe defaultSettings,
        recipeMarkdown lemonCakeRecipe defaultSettings) ∧
    firstLine (recipeMarkdown lemonCakeRecipe defaultSettings) =
      ("# ").data ++ pyReplaceSpaceDash lemonCakeRecipe.title :=
  c1_first_line_hyphenated demoScrape demoUrl defaultSettings lemonCakeRecipe
    (by decide) (by decide)

/-- C2, counterexample: saving the recipe titled `Lemon Cake` and then
extracting the title as `browse_recipes` does yields `Lemon-Cake`, which
differs from the scraped title even after whitespace trimming. -/
theorem c2_counterexample :
    (save_recipe_to_markdown demoScrape demoUrl defaultSettings).written =
      some (savePath lemonCakeRecipe defaultSettings,
        recipeMarkdown lemonCakeRecipe defaultSettings) ∧
    extractTitle (recipeMarkdown lemonCakeRecipe defaultSettings) ≠ lemonCakeRecipe.title ∧
    extractTitle (recipeMarkdown lemonCakeRecipe defaultSettings) ≠
      pyStrip lemonCakeRecipe.title ∧
    extractTitle (recipeMarkdown lemonCakeRecipe defaultSettings) = ("Lemon-Cake").data := by
  refine ⟨by decide, by decide, by decide, by decide⟩

/-- C2 (amended): for every scraped recipe whose title contains no newline,
saving via `save_recipe_to_markdown` and then applying the Recipe Library's
title extraction yields the title with every space replaced by a hyphen
(and surrounding non-space whitespace trimmed), not the title itself. -/
theorem c2_roundtrip_hyphenated (scrape : PyStr → Option Recipe) (url : PyStr)
    (s : Settings) (r : Recipe) (hscrape : scrape url = some r) (ht : '\n' ∉ r.title) :
    (save_recipe_to_markdown scrape url s).written =
      some (savePath r s, recipeMarkdown r s) ∧
    extractTitle (recipeMarkdown r s) = pyStrip (pyReplaceSpaceDash r.title) := by
  constructor
  · simp [save_recipe_to_markdown, hscrape]
  · exact extractTitle_recipeMarkdown r s ht

theorem c2_roundtrip_hyphenated_witness :
    (save_recipe_to_markdown demoScrape demoUrl defaultSettings).written =
      some (savePath lemonCakeRecipe defaultSettings,
        recipeMarkdown lemonCakeRecipe defaultSettings) ∧
    extractTitle (recipeMarkdown lemonCakeRecipe defaultSettings) =
      pyStrip (pyReplaceSpaceDash lemonCakeRecipe.title) :=
  c2_roundtrip_hyphenated demoScrape demoUrl defaultSettings lemonCakeRecipe
    (by decide) (by decide)

/-- C3: on a URL whose scrape fails, `save_recipe_to_markdown` does report
the scrape error and creates no file, but it does not terminate with only
the reported error: execution continues past the `except` arm and line 81
reads the unbound local `scraper`, raising `UnboundLocalError` — the defect
§4.1/§9 of the specification flag.  Evaluated here at a failing URL. -/
theorem c3_scrape_failure_raises :
    (save_recipe_to_markdown demoScrape (("https://bad.example/x").data)
        defaultSettings).messages = [Msg.couldNotScrape] ∧
    (save_recipe_to_markdown demoScrape (("https://bad.example/x").data)
        defaultSettings).written = none ∧
    (save_recipe_to_markdown demoScrape (("https://bad.example/x").data)
        defaultSettings).raised = some PyError.unboundLocal := by
  refine ⟨by decide, by decide, by decide⟩

/-- C4: the file name used by `save_recipe_to_markdown` is a pure function
of the title: lowercase the title, map every whitespace character to `-`,
leave all other characters unchanged, append `.md`; in particular
`Lemon Cake` derives `lemon-cake.md`. -/
theorem c4_filename_derivation :
    (∀ (r : Recipe) (s : Settings),
        savePath r s = s.directory ++ ("/").data ++ spec_derive_filename r.title) ∧
    sourceFileName (("Lemon Cake").data) = ("lemon-cake.md").data := by
  constructor
  · intro r s
    unfold savePath
    rw [sourceFileName_eq_spec]
  · decide

/-- C5: saving a recipe with the same title any number of times `n ≥ 1`
writes to the same derived path each time: the resulting store equals the
store after a single save, and the directory gains exactly the one derived
path (when it is new) regardless of the repeat count. -/
theorem c5_idempotent (st : Store) (r r2 : Recipe) (s : Settings) (n : Nat)
    (hn : 1 ≤ n) (ht : r2.title = r.title) :
    savePath r2 s = savePath r s ∧
    repeatSave st r s n = storeWrite st (savePath r s) (recipeMarkdown r s) ∧
    (repeatSave st r s n).map Prod.fst =
      (if savePath r s ∈ st.map Prod.fst then st.map Prod.fst
       else st.map Prod.fst ++ [savePath r s]) := by
  refine ⟨?_, repeatSave_eq st r s n hn, ?_⟩
  · unfold savePath sourceFileName
    rw [ht]
  · rw [repeatSave_eq st r s n hn, storeWrite_keys]

theorem c5_idempotent_witness :
    savePath lemonCakeRecipe defaultSettings = savePath lemonCakeRecipe defaultSettings ∧
    repeatSave [] lemonCakeRecipe defaultSettings 3 =
      storeWrite [] (savePath lemonCakeRecipe defaultSettings)
        (recipeMarkdown lemonCakeRecipe defaultSettings) ∧
    (repeatSave [] lemonCakeRecipe defaultSettings 3).map Prod.fst =
      (if savePath lemonCakeRecipe defaultSettings ∈ ([] : Store).map Prod.fst
       then ([] : Store).map Prod.fst
       else ([] : Store).map Prod.fst ++ [savePath lemonCakeRecipe defaultSettings]) :=
  c5_idempotent [] lemonCakeRecipe lemonCakeRecipe defaultSettings 3 (by decide) rfl

/-- C6, counterexample: in the three-URL batch where only the second URL
fails, exactly 2 files are written and the third URL is still processed,
but the number of reported error messages is 2, not 1: the save step
reports the scrape failure and then raises, and the batch loop reports the
raised error again. -/
theorem c6_counterexample :
    (save_list_of_recipes batchScrape batchFile defaultSettings).writes.length = 2 ∧
    (save_list_of_recipes batchScrape batchFile defaultSettings).attempts =
      [urlA, urlB, urlC] ∧
    (save_list_of_recipes batchScrape batchFile defaultSettings).messages =
      [Msg.couldNotScrape, Msg.batchSaveError urlB] ∧
    (save_list_of_recipes batchScrape batchFile defaultSettings).messages.length ≠ 1 := by
  refine ⟨by decide, by decide, by decide, by decide⟩

/-- C6 (amended): the batch `list` operation isolates per-line failures:
for a file of 3 URLs where only the 2nd fails, exactly 2 recipe files are
written and the 3rd URL is still processed, and the single failure is
reported twice — once by the save step's scrape report and once by the
batch-level handler that catches the error the save step raises. -/
theorem c6_batch_isolation (scrape : PyStr → Option Recipe) (s : Settings)
    (a b c : PyStr) (ra rc : Recipe)
    (hna : '\n' ∉ a) (hnb : '\n' ∉ b) (hnc : '\n' ∉ c)
    (hsa : stripLine (a ++ ['\n']) = a) (hsb : stripLine (b ++ ['\n']) = b)
    (hsc : stripLine (c ++ ['\n']) = c)
    (ha : scrape a = some ra) (hb : scrape b = none) (hc : scrape c = some rc) :
    save_list_of_recipes scrape (a ++ ('\n' :: (b ++ ('\n' :: (c ++ ['\n']))))) s =
      { messages := [Msg.couldNotScrape, Msg.batchSaveError b]
        writes := [(savePath ra s, recipeMarkdown ra s),
          (savePath rc s, recipeMarkdown rc s)]
        attempts := [a, b, c] } := by
  unfold save_list_of_recipes
  have hlines : pyFileLines (a ++ ('\n' :: (b ++ ('\n' :: (c ++ ['\n']))))) =
      [a ++ ['\n'], b ++ ['\n'], c ++ ['\n']] := by
    rw [pyFileLines_append a _ hna, pyFileLines_append b _ hnb]
    rw [show c ++ ['\n'] = c ++ '\n' :: ([] : PyStr) from rfl,
      pyFileLines_append c [] hnc]
    rfl
  rw [hlines,
    processLines_cons_ok scrape s (a ++ ['\n']) _ ra (by rw [hsa]; exact ha),
    processLines_cons_fail scrape s (b ++ ['\n']) _ (by rw [hsb]; exact hb),
    processLines_cons_ok scrape s (c ++ ['\n']) _ rc (by rw [hsc]; exact hc)]
  simp [processLines, hsa, hsb, hsc]

theorem c6_batch_isolation_witness :
    save_list_of_recipes batchScrape
        (urlA ++ ('\n' :: (urlB ++ ('\n' :: (urlC ++ ['\n']))))) defaultSettings =
      { messages := [Msg.couldNotScrape, Msg.batchSaveError urlB]
        writes := [(savePath soupRecipe defaultSettings,
            recipeMarkdown soupRecipe defaultSettings),
          (savePath chiliRecipe defaultSettings,
            recipeMarkdown chiliRecipe defaultSettings)]
        attempts := [urlA, urlB, urlC] } :=
  c6_batch_isolation batchScrape defaultSettings urlA urlB urlC soupRecipe chiliRecipe
    (by decide) (by decide) (by decide) (by decide) (by decide) (by decide)
    (by decide) (by decide) (by decide)

/-- C7, counterexample: a file consisting of one whitespace-only line does
trigger a save attempt (with the empty string as URL) and does produce
reported errors, so blank lines are not ignored. -/
theorem c7_counterexample :
    (save_list_of_recipes demoScrape ([' ', '\t']) defaultSettings).attempts =
      [([] : PyStr)] ∧
    (save_list_of_recipes demoScrape ([' ', '\t']) defaultSettings).messages ≠ [] := by
  refine ⟨by decide, by decide⟩

/-- C7 (amended): the batch `list` operation attempts a save for *every*
line of the input file, whitespace-only lines included: the attempted URLs
are exactly the lines of the file each stripped of surrounding whitespace
(so a blank line leads to an attempted save of the empty URL, not to being
skipped). -/
theorem c7_every_line_attempted (scrape : PyStr → Option Recipe) (s : Settings)
    (content : PyStr) :
    (save_list_of_recipes scrape content s).attempts =
      (pyFileLines content).map stripLine := by
  unfold save_list_of_recipes
  exact processLines_attempts scrape s (pyFileLines content)

/-- C8: browsing a directory (directory configured, i.e. non-empty) none of
whose entries has a name ending in `.md` — in particular an empty directory
— reports that there is nothing to browse and returns without showing the
selection prompt. -/
theorem c8_nothing_to_browse (s : Settings) (listing : List DirEntry)
    (hdir : s.directory ≠ [])
    (hmd : ∀ e ∈ listing, ((".md").data).isSuffixOf e.name = false) :
    browse_recipes s listing = BrowseOutcome.nothingToBrowse := by
  unfold browse_recipes
  rw [if_neg hdir]
  show (if browseTitleMapAux s.directory [] listing = [] then BrowseOutcome.nothingToBrowse
        else BrowseOutcome.prompted
          ((browseTitleMapAux s.directory [] listing).map Prod.fst ++ [("Quit").data])) =
      BrowseOutcome.nothingToBrowse
  rw [browseTitleMapAux_no_md s.directory listing [] hmd]
  rfl

theorem c8_nothing_to_browse_witness :
    browse_recipes defaultSettings
        [{ name := ("notes.txt").data, content := ("hello").data }] =
      BrowseOutcome.nothingToBrowse :=
  c8_nothing_to_browse defaultSettings
    [{ name := ("notes.txt").data, content := ("hello").data }] (by decide) (by decide)

theorem withDefaults_directory (d : YDict) :
    dictGet (withDefaults d) kDirectory = dictGet d kDirectory := by
  unfold withDefaults
  rw [dictGet_setdefault_other _ _ _ _ (by decide),
    dictGet_setdefault_other _ _ _ _ (by decide)]

theorem withDefaults_time_ne_none (d : YDict) : dictGet (withDefaults d) kTime ≠ none := by
  unfold withDefaults
  rw [dictGet_setdefault_other _ _ _ _ (by decide), dictGet_setdefault_self]
  simp

theorem withDefaults_yield_ne_none (d : YDict) : dictGet (withDefaults d) kYield ≠ none := by
  unfold withDefaults
  rw [dictGet_setdefault_self]
  simp

theorem withDefaults_time_default (d : YDict) (h : dictGet d kTime = none) :
    dictGet (withDefaults d) kTime = some (YVal.vbool true) := by
  unfold withDefaults
  rw [dictGet_setdefault_other _ _ _ _ (by decide), dictGet_setdefault_self, h]
  rfl

theorem withDefaults_yield_default (d : YDict) (h : dictGet d kYield = none) :
    dictGet (withDefaults d) kYield = some (YVal.vbool true) := by
  unfold withDefaults
  rw [dictGet_setdefault_self, dictGet_setdefault_other _ _ _ _ (by decide), h]
  rfl

theorem defaultRecipeDirectory_ne_nil (home : PyStr) : defaultRecipeDirectory home ≠ [] := by
  unfold defaultRecipeDirectory
  exact pathJoin_ne_nil _ _ (by decide)

theorem load_yaml_defaulted (home : PyStr) (cf result : YDict)
    (h : result = withDefaults (dictSet cf kDirectory
      (YVal.vstr (defaultRecipeDirectory home)))) :
    (∃ d, dictGet result kDirectory = some (YVal.vstr d) ∧ d ≠ []) ∧
    dictGet result kTime ≠ none ∧
    dictGet result kYield ≠ none ∧
    dictGet result kDirectory = some (YVal.vstr (defaultRecipeDirectory home)) ∧
    (dictGet cf kTime = none → dictGet result kTime = some (YVal.vbool true)) ∧
    (dictGet cf kYield = none → dictGet result kYield = some (YVal.vbool true)) := by
  subst h
  have hdir : dictGet (withDefaults (dictSet cf kDirectory
      (YVal.vstr (defaultRecipeDirectory home)))) kDirectory =
      some (YVal.vstr (defaultRecipeDirectory home)) := by
    rw [withDefaults_directory, dictGet_set_self]
  refine ⟨⟨defaultRecipeDirectory home, hdir, defaultRecipeDirectory_ne_nil home⟩,
    withDefaults_time_ne_none _, withDefaults_yield_ne_none _, hdir, ?_, ?_⟩
  · intro hx
    apply withDefaults_time_default
    rw [dictGet_set_other _ _ _ _ (by decide)]
    exact hx
  · intro hx
    apply withDefaults_yield_default
    rw [dictGet_set_other _ _ _ _ (by decide)]
    exact hx

theorem load_yaml_kept (cf result : YDict) (s : PyStr) (hs : s ≠ [])
    (hd : dictGet cf kDirectory = some (YVal.vstr s)) (h : result = withDefaults cf) :
    (∃ d, dictGet result kDirectory = some (YVal.vstr d) ∧ d ≠ []) ∧
    dictGet result kTime ≠ none ∧
    dictGet result kYield ≠ none ∧
    (dictGet cf kTime = none → dictGet result kTime = some (YVal.vbool true)) ∧
    (dictGet cf kYield = none → dictGet result kYield = some (YVal.vbool true)) := by
  subst h
  refine ⟨⟨s, ?_, hs⟩, withDefaults_time_ne_none _, withDefaults_yield_ne_none _,
    fun hx => withDefaults_time_default _ hx, fun hx => withDefaults_yield_default _ hx⟩
  rw [withDefaults_directory, hd]

/-- C9: whenever `load_yaml` returns a settings dictionary, that dictionary
holds a non-empty string under `directory` (the default
`~/Documents/pure_recipes` when the config file's `directory` is null or
missing) and holds `time` and `yield` keys (defaulting to true when absent),
for every content of the config file, including a missing or empty one
(modelled as `none`). -/
theorem c9_load_yaml_invariants (home : PyStr) (config : Option YDict) (result : YDict)
    (h : load_yaml home config = Except.ok result) :
    (∃ d, dictGet result kDirectory = some (YVal.vstr d) ∧ d ≠ []) ∧
    dictGet result kTime ≠ none ∧
    dictGet result kYield ≠ none ∧
    ((dictGet (config.getD configDefaultCreated) kDirectory = none ∨
        dictGet (config.getD configDefaultCreated) kDirectory = some YVal.vnull) →
      dictGet result kDirectory = some (YVal.vstr (defaultRecipeDirectory home))) ∧
    (dictGet (config.getD configDefaultCreated) kTime = none →
      dictGet result kTime = some (YVal.vbool true)) ∧
    (dictGet (config.getD configDefaultCreated) kYield = none →
      dictGet result kYield = some (YVal.vbool true)) := by
  cases config with
  | none =>
      have hl : load_yaml home none = Except.ok (withDefaults (dictSet configDefaultCreated
          kDirectory (YVal.vstr (defaultRecipeDirectory home)))) := rfl
      rw [hl] at h
      injection h with h2
      obtain ⟨hd1, ht1, hy1, hd2, _, _⟩ :=
        load_yaml_defaulted home configDefaultCreated result h2.symm
      exact ⟨hd1, ht1, hy1, fun _ => hd2,
        fun hx => absurd hx (by decide), fun hx => absurd hx (by decide)⟩
  | some cf =>
      have hl : load_yaml home (some cf) =
          (match dictGet cf kDirectory with
           | some (YVal.vstr s) =>
               if s = [] then
                 Except.ok (withDefaults (dictSet cf kDirectory
                   (YVal.vstr (defaultRecipeDirectory home))))
               else Except.ok (withDefaults cf)
           | some (YVal.vbool b) =>
               if b then Except.error PyError.typeError
               else Except.ok (withDefaults (dictSet cf kDirectory
                 (YVal.vstr (defaultRecipeDirectory home))))
           | some YVal.vnull =>
               Except.ok (withDefaults (dictSet cf kDirectory
                 (YVal.vstr (defaultRecipeDirectory home))))
           | none =>
               Except.ok (withDefaults (dictSet cf kDirectory
                 (YVal.vstr (defaultRecipeDirectory home))))) := rfl
      rw [hl] at h
      cases hdd : dictGet cf kDirectory with
      | none =>
          rw [hdd] at h
          injection h with h2
          obtain ⟨hd1, ht1, hy1, hd2, htd, hyd⟩ := load_yaml_defaulted home cf result h2.symm
          exact ⟨hd1, ht1, hy1, fun _ => hd2, htd, hyd⟩
      | some v =>
          cases v with
          | vnull =>
              rw [hdd] at h
              injection h with h2
              obtain ⟨hd1, ht1, hy1, hd2, htd, hyd⟩ :=
                load_yaml_defaulted home cf result h2.symm
              exact ⟨hd1, ht1, hy1, fun _ => hd2, htd, hyd⟩
          | vbool b =>
              rw [hdd] at h
              cases b with
              | true => exact Except.noConfusion h
              | false =>
                  injection h with h2
                  obtain ⟨hd1, ht1, hy1, hd2, htd, hyd⟩ :=
                    load_yaml_defaulted home cf result h2.symm
                  exact ⟨hd1, ht1, hy1, fun _ => hd2, htd, hyd⟩
          | vstr s =>
              rw [hdd] at h
              have h3 : (if s = [] then
                  Except.ok (withDefaults (dictSet cf kDirectory
                    (YVal.vstr (defaultRecipeDirectory home))))
                else Except.ok (withDefaults cf)) = Except.ok result := h
              by_cases hs : s = []
              · rw [if_pos hs] at h3
                injection h3 with h2
                obtain ⟨hd1, ht1, hy1, hd2, htd, hyd⟩ :=
                  load_yaml_defaulted home cf result h2.symm
                exact ⟨hd1, ht1, hy1, fun _ => hd2, htd, hyd⟩
              · rw [if_neg hs] at h3
                injection h3 with h2
                obtain ⟨hd1, ht1, hy1, htd, hyd⟩ :=
                  load_yaml_kept cf result s hs hdd h2.symm
                refine ⟨hd1, ht1, hy1, ?_, htd, hyd⟩
                intro hx
                simp only [Option.getD_some, hdd] at hx
                simp at hx

theorem c9_load_yaml_invariants_witness :
    (∃ d, dictGet [(kDirectory, YVal.vstr (("/home/user/Documents/pure_recipes").data)),
        (kTime, YVal.vbool true), (kYield, YVal.vbool true)] kDirectory =
          some (YVal.vstr d) ∧ d ≠ []) ∧
    dictGet [(kDirectory, YVal.vstr (("/home/user/Documents/pure_recipes").data)),
        (kTime, YVal.vbool true), (kYield, YVal.vbool true)] kTime ≠ none ∧
    dictGet [(kDirectory, YVal.vstr (("/home/user/Documents/pure_recipes").data)),
        (kTime, YVal.vbool true), (kYield, YVal.vbool true)] kYield ≠ none ∧
    ((dictGet ((none : Option YDict).getD configDefaultCreated) kDirectory = none ∨
        dictGet ((none : Option YDict).getD configDefaultCreated) kDirectory =
          some YVal.vnull) →
      dictGet [(kDirectory, YVal.vstr (("/home/user/Documents/pure_recipes").data)),
        (kTime, YVal.vbool true), (kYield, YVal.vbool true)] kDirectory =
          some (YVal.vstr (defaultRecipeDirectory (("/home/user").data)))) ∧
    (dictGet ((none : Option YDict).getD configDefaultCreated) kTime = none →
      dictGet [(kDirectory, YVal.vstr (("/home/user/Documents/pure_recipes").data)),
        (kTime, YVal.vbool true), (kYield, YVal.vbool true)] kTime =
          some (YVal.vbool true)) ∧
    (dictGet ((none : Option YDict).getD configDefaultCreated) kYield = none →
      dictGet [(kDirectory, YVal.vstr (("/home/user/Documents/pure_recipes").data)),
        (kTime, YVal.vbool true), (kYield, YVal.vbool true)] kYield =
          some (YVal.vbool true)) :=
  c9_load_yaml_invariants (("/home/user").data) none
    [(kDirectory, YVal.vstr (("/home/user/Documents/pure_recipes").data)),
      (kTime, YVal.vbool true), (kYield, YVal.vbool true)] rfl

/-- C10: for every URL that scrapes successfully, `view_recipe` writes the
recipe file into the configured storage directory as its very first action,
before displaying anything — so the file exists on disk for both possible
answers to the prompt, `Save this recipe` and `Quit`. -/
theorem c10_view_persists (scrape : PyStr → Option Recipe) (url : PyStr) (s : Settings)
    (r : Recipe) (answer : ViewAnswer) (h : scrape url = some r) :
    (view_recipe scrape url s answer).head? =
      some (VEvent.write (savePath r s) (recipeMarkdown r s)) ∧
    VEvent.display ∈ view_recipe scrape url s answer ∧
    VEvent.write (savePath r s) (recipeMarkdown r s) ∈ view_recipe scrape url s answer := by
  cases answer <;> simp [view_recipe, h]

theorem c10_view_persists_witness :
    (view_recipe demoScrape demoUrl defaultSettings ViewAnswer.quit).head? =
      some (VEvent.write (savePath lemonCakeRecipe defaultSettings)
        (recipeMarkdown lemonCakeRecipe defaultSettings)) ∧
    VEvent.display ∈ view_recipe demoScrape demoUrl defaultSettings ViewAnswer.quit ∧
    VEvent.write (savePath lemonCakeRecipe defaultSettings)
        (recipeMarkdown lemonCakeRecipe defaultSettings) ∈
      view_recipe demoScrape demoUrl defaultSettings ViewAnswer.quit :=
  c10_view_persists demoScrape demoUrl defaultSettings lemonCakeRecipe ViewAnswer.quit
    (by decide)
